import Mathlib

/-!
Verification of the VAIexpress order pricing and aggregation service
(src/index.js) against its specification.

Modelling conventions:
- A JSON body field is a `JSVal`: absent (`undef`), `null`, a boolean,
  a number, or a string.  JSON cannot carry `NaN` or `undefined` as a
  value, so a present numeric field is a genuine rational.
- JavaScript numbers are modelled as `Option ℚ`: `some q` is an ordinary
  (finite) number, `none` is `NaN`.  Arithmetic propagates `NaN` exactly
  as IEEE-754 does for the operations used here (`NaN` absorbs `+`, `-`,
  `*`; in particular `NaN * 0 = NaN`).  Rounding of IEEE doubles is not
  modelled: every identity claimed by the spec is an identity between
  syntactically identical expression trees, so it is insensitive to
  rounding; exact rational arithmetic is used instead.
- `Number(s)` on a string is modelled for decimal literals
  (optional sign, integer part, optional fraction part, surrounding
  whitespace); any other non-empty string yields `NaN`, the empty or
  all-whitespace string yields `0`, as in JavaScript.
- The MySQL order store is modelled as an association list from ids to
  rows; `UPDATE`/`DELETE ... WHERE id = ?` report the number of affected
  rows, and the handlers translate zero affected rows into a NotFound
  outcome.  SQL `SUM` over an empty (or all-NULL) set is `NULL`, modelled
  as `none`; the summary handler coerces `NULL` to `0` via
  `Number(v || 0)`.
-/

/-- A JSON value as it can appear in a request body field. -/
inductive JSVal where
  | undef
  | nullv
  | boolv (b : Bool)
  | num (q : ℚ)
  | str (s : String)
deriving DecidableEq, Repr

/-- JavaScript truthiness of a `JSVal` (`undefined`, `null`, `false`,
`0` and `""` are falsy). -/
def JSVal.truthy : JSVal → Bool
  | .undef => false
  | .nullv => false
  | .boolv b => b
  | .num q => decide (q ≠ 0)
  | .str s => decide (s ≠ "")

/-- Leading and trailing whitespace removed, as JavaScript `ToNumber`
does before parsing a string. -/
def trimChars (cs : List Char) : List Char :=
  ((cs.dropWhile Char.isWhitespace).reverse.dropWhile Char.isWhitespace).reverse

/-- Value of a list of decimal digit characters, most significant first. -/
def digitsToNat (cs : List Char) : ℕ :=
  cs.foldl (fun a c => 10 * a + (c.toNat - 48)) 0

/-- JavaScript `Number(string)` restricted to decimal literals: optional
sign, digits, optional fraction, surrounding whitespace; any other
non-empty string is `NaN` (`none`), the empty string is `0`. -/
def parseJSNumber (s : String) : Option ℚ :=
  let t := trimChars s.data
  if t.isEmpty then some 0
  else
    let sb : ℚ × List Char :=
      match t with
      | '-' :: cs => (-1, cs)
      | '+' :: cs => (1, cs)
      | cs => (1, cs)
    let ds := sb.2.span Char.isDigit
    match ds.2 with
    | [] => if ds.1.isEmpty then none else some (sb.1 * (digitsToNat ds.1 : ℚ))
    | '.' :: rest2 =>
        let fs := rest2.span Char.isDigit
        if fs.2.isEmpty && !(ds.1.isEmpty && fs.1.isEmpty) then
          some (sb.1 * ((digitsToNat ds.1 : ℚ) + (digitsToNat fs.1 : ℚ) / 10 ^ fs.1.length))
        else none
    | _ => none

/-- JavaScript `Number(v)` on a `JSVal`.  `none` is `NaN`
(`Number(undefined) = NaN`, `Number(null) = 0`). -/
def JSVal.toNumber : JSVal → Option ℚ
  | .undef => none
  | .nullv => some 0
  | .boolv b => some (if b then 1 else 0)
  | .num q => some q
  | .str s => parseJSNumber s

/-- JavaScript `Number(v || 0)`: a falsy field degenerates to `0`,
a truthy one is coerced with `Number` (possibly to `NaN`). -/
def numOrZero (v : JSVal) : Option ℚ :=
  if v.truthy then v.toNumber else some 0

/-- JavaScript `Number(v || d)` for a numeric default `d`
(used for `customer_rate || baseRate`). -/
def numOrDefault (v : JSVal) (d : ℚ) : Option ℚ :=
  if v.truthy then v.toNumber else some d

/-- IEEE-style addition with `NaN` propagation. -/
def jadd : Option ℚ → Option ℚ → Option ℚ
  | some x, some y => some (x + y)
  | _, _ => none

/-- IEEE-style subtraction with `NaN` propagation. -/
def jsub : Option ℚ → Option ℚ → Option ℚ
  | some x, some y => some (x - y)
  | _, _ => none

/-- IEEE-style multiplication with `NaN` propagation (finite operands
only, so `NaN * 0 = NaN` and there is no infinity case). -/
def jmul : Option ℚ → Option ℚ → Option ℚ
  | some x, some y => some (x * y)
  | _, _ => none

/-- The numeric fields of an order submission, as raw JSON values. -/
structure Payload where
  price_thb : JSVal := .undef
  shipping_thb : JSVal := .undef
  service_fee_lak : JSVal := .undef
  th_to_la_charge_lak : JSVal := .undef
  actual_th_to_la_cost_lak : JSVal := .undef
  customer_rate : JSVal := .undef
deriving DecidableEq, Repr

/-- The record returned by `computeTotals`: coerced inputs plus all
derived monetary fields, each a JavaScript number (`none` = `NaN`). -/
structure Totals where
  price_thb : Option ℚ
  shipping_thb : Option ℚ
  customer_rate : Option ℚ
  service_fee_lak : Option ℚ
  th_to_la_charge_lak : Option ℚ
  actual_th_to_la_cost_lak : Option ℚ
  price_lak : Option ℚ
  shipping_lak : Option ℚ
  total_lak : Option ℚ
  rate_profit_lak : Option ℚ
  net_profit_lak : Option ℚ
deriving DecidableEq, Repr

/-- Shallow embedding of `computeTotals(payload, baseRate)`
(src/index.js lines 32-61), line for line. -/
def computeTotals (payload : Payload) (baseRate : ℚ) : Totals :=
  let priceThb := numOrZero payload.price_thb
  let shipThb := numOrZero payload.shipping_thb
  let serviceFee := numOrZero payload.service_fee_lak
  let thToLaCharge := numOrZero payload.th_to_la_charge_lak
  let actualCost := numOrZero payload.actual_th_to_la_cost_lak
  let customerRate := numOrDefault payload.customer_rate baseRate
  let priceLak := jmul priceThb customerRate
  let shipLak := jmul shipThb customerRate
  let totalLak := jadd (jadd (jadd priceLak shipLak) serviceFee) thToLaCharge
  let rateProfitLak := jmul (jadd priceThb shipThb) (jsub customerRate (some baseRate))
  let costLak := jadd (jadd (jmul priceThb (some baseRate)) (jmul shipThb (some baseRate))) actualCost
  let netProfitLak := jsub totalLak costLak
  { price_thb := priceThb
    shipping_thb := shipThb
    customer_rate := customerRate
    service_fee_lak := serviceFee
    th_to_la_charge_lak := thToLaCharge
    actual_th_to_la_cost_lak := actualCost
    price_lak := priceLak
    shipping_lak := shipLak
    total_lak := totalLak
    rate_profit_lak := rateProfitLak
    net_profit_lak := netProfitLak }

/-- Concrete scenario payload of the spec calibration scenario. -/
def scenarioPayload : Payload :=
  { price_thb := .num 100
    shipping_thb := .num 20
    service_fee_lak := .num 5000
    th_to_la_charge_lak := .num 2000
    actual_th_to_la_cost_lak := .num 3000
    customer_rate := .num 1350 }

/-- Index of a numeric input field of `Payload`. -/
inductive NumField where
  | price
  | shipping
  | serviceFee
  | thCharge
  | actualCost
  | custRate
deriving DecidableEq, Repr

/-- Read the indexed numeric field of a payload. -/
def Payload.get : Payload → NumField → JSVal
  | p, .price => p.price_thb
  | p, .shipping => p.shipping_thb
  | p, .serviceFee => p.service_fee_lak
  | p, .thCharge => p.th_to_la_charge_lak
  | p, .actualCost => p.actual_th_to_la_cost_lak
  | p, .custRate => p.customer_rate

/-- Replace the indexed numeric field of a payload. -/
def Payload.set : Payload → NumField → JSVal → Payload
  | p, .price, v => { p with price_thb := v }
  | p, .shipping, v => { p with shipping_thb := v }
  | p, .serviceFee, v => { p with service_fee_lak := v }
  | p, .thCharge, v => { p with th_to_la_charge_lak := v }
  | p, .actualCost, v => { p with actual_th_to_la_cost_lak := v }
  | p, .custRate, v => { p with customer_rate := v }

/-- JavaScript `v || d` for an optional string body field: an absent or
empty-string field falls back to the handler default. -/
def strOr (v : Option String) (d : String) : String :=
  match v with
  | some s => if s = "" then d else s
  | none => d

/-- A create/update request body: the numeric pricing fields plus the
pass-through string fields the handlers default. -/
structure ReqBody where
  numeric : Payload := {}
  order_date : Option String := none
  customer_name : Option String := none
  product_link : Option String := none
  payment_status : Option String := none
  order_status : Option String := none
  tracking_no : Option String := none
  carrier : Option String := none
  tracking_link : Option String := none
deriving DecidableEq, Repr

/-- A stored order row: defaulted string fields, the base-rate snapshot
`rate`, and the fields computed by `computeTotals`. -/
structure OrderRow where
  order_date : String
  customer_name : String
  product_link : String
  payment_status : String
  order_status : String
  tracking_no : String
  carrier : String
  tracking_link : String
  rate : ℚ
  totals : Totals
deriving DecidableEq, Repr

/-- The row written by POST/PUT /api/orders (src/index.js lines 170-181
and 217-228): handler string defaults, the current base rate as `rate`,
and every field of `computeTotals(req.body, baseRate)`. -/
def buildRow (body : ReqBody) (baseRate : ℚ) (today : String) : OrderRow :=
  { order_date := strOr body.order_date today
    customer_name := strOr body.customer_name ""
    product_link := strOr body.product_link ""
    payment_status := strOr body.payment_status "Unpaid"
    order_status := strOr body.order_status "Pending"
    tracking_no := strOr body.tracking_no ""
    carrier := strOr body.carrier ""
    tracking_link := strOr body.tracking_link ""
    rate := baseRate
    totals := computeTotals body.numeric baseRate }

/-- The orders table: rows keyed by id. -/
abbrev OrderStore := List (ℕ × OrderRow)

/-- SQL `SELECT * FROM orders WHERE id = ?` (first matching row). -/
def lookupOrder (store : OrderStore) (id : ℕ) : Option OrderRow :=
  (store.find? (fun r => decide (r.1 = id))).map Prod.snd

/-- Outcome classification at the API boundary: success, NotFound
(zero affected rows, mapped to HTTP 404) and StorageFailure (a thrown
storage error, the catch branch of each handler, mapped to HTTP 500). -/
inductive Outcome where
  | ok
  | notFound
  | storageFailure
deriving DecidableEq, Repr

/-- SQL `UPDATE orders SET ... WHERE id = ?`: every row whose id matches
is replaced; the affected-row count is the number of matches. -/
def sqlUpdate (store : OrderStore) (id : ℕ) (row : OrderRow) : OrderStore × ℕ :=
  (store.map (fun r => if r.1 = id then (r.1, row) else r),
   (store.filter (fun r => decide (r.1 = id))).length)

/-- PUT /api/orders/:id (src/index.js lines 212-258): recompute every
field from the submitted body and the base rate current at update time,
write the row, and report NotFound on zero affected rows. -/
def putOrder (store : OrderStore) (id : ℕ) (body : ReqBody) (baseRate : ℚ)
    (today : String) : OrderStore × Outcome :=
  let r := sqlUpdate store id (buildRow body baseRate today)
  (r.1, if r.2 = 0 then .notFound else .ok)

/-- SQL `DELETE FROM orders WHERE id = ?` with its affected-row count. -/
def sqlDelete (store : OrderStore) (id : ℕ) : OrderStore × ℕ :=
  (store.filter (fun r => decide (r.1 ≠ id)),
   (store.filter (fun r => decide (r.1 = id))).length)

/-- DELETE /api/orders/:id (src/index.js lines 260-268): hard delete,
NotFound on zero affected rows. -/
def deleteOrder (store : OrderStore) (id : ℕ) : OrderStore × Outcome :=
  let r := sqlDelete store id
  (r.1, if r.2 = 0 then .notFound else .ok)

/-- SQL `SUM` over a selected column: NULL (`none`) when no non-NULL
value is in range, otherwise the sum of the non-NULL values. -/
def sqlSum (vs : List (Option ℚ)) : Option ℚ :=
  let ws := vs.filterMap id
  if ws.isEmpty then none else some ws.sum

/-- JavaScript `Number(v || 0)` applied to an SQL aggregate value:
NULL and 0 both become 0. -/
def aggOrZero (v : Option ℚ) : ℚ := v.getD 0

/-- The summary object of GET /api/stats/summary, flattened. -/
structure Summary where
  date : String
  rate : ℚ
  rate_updated : Option String
  today_total_lak : ℚ
  today_profit_total : ℚ
  today_rate_profit : ℚ
  today_other_profit : ℚ
  today_orders_count : ℕ
  month_total_lak : ℚ
  month_profit_total : ℚ
  month_period : String
  paid_orders : ℕ
  unpaid_orders : ℕ
  unpaid_value_lak : ℚ
  gross_value_lak : ℚ
  all_orders_count : ℕ
deriving DecidableEq, Repr

/-- GET /api/stats/summary (src/index.js lines 76-140): the eleven
independent aggregates over the orders table, combined into one summary.
Date filters compare the `YYYY-MM-DD` string fields the way the SQL
`order_date = ?` and `YEAR(..)=? AND MONTH(..)=?` clauses partition
rows. -/
def summarize (rows : List OrderRow) (today : String) (rate : ℚ)
    (rateUpdated : Option String) : Summary :=
  let year := today.take 4
  let monthS := (today.drop 5).take 2
  let todays := rows.filter (fun r => r.order_date == today)
  let months := rows.filter
    (fun r => r.order_date.take 4 == year && (r.order_date.drop 5).take 2 == monthS)
  let paids := rows.filter (fun r => r.payment_status == "Paid")
  let unpaids := rows.filter (fun r => r.payment_status == "Unpaid")
  let todayProfit := aggOrZero (sqlSum (todays.map (fun r => r.totals.net_profit_lak)))
  let todayRateProfit := aggOrZero (sqlSum (todays.map (fun r => r.totals.rate_profit_lak)))
  { date := today
    rate := rate
    rate_updated := rateUpdated
    today_total_lak := aggOrZero (sqlSum (todays.map (fun r => r.totals.total_lak)))
    today_profit_total := todayProfit
    today_rate_profit := todayRateProfit
    today_other_profit := todayProfit - todayRateProfit
    today_orders_count := todays.length
    month_total_lak := aggOrZero (sqlSum (months.map (fun r => r.totals.total_lak)))
    month_profit_total := aggOrZero (sqlSum (months.map (fun r => r.totals.net_profit_lak)))
    month_period := year ++ "-" ++ monthS
    paid_orders := paids.length
    unpaid_orders := unpaids.length
    unpaid_value_lak := aggOrZero (sqlSum (unpaids.map (fun r => r.totals.total_lak)))
    gross_value_lak := aggOrZero (sqlSum (rows.map (fun r => r.totals.total_lak)))
    all_orders_count := rows.length }

/-- Payload with a non-numeric price string, all other fields absent. -/
def nanPricePayload : Payload := { price_thb := .str "x" }

/-- Payload supplying customer_rate = 0 and price_thb = 1. -/
def zeroRatePayload : Payload := { price_thb := .num 1, customer_rate := .num 0 }

/-- Payload with customer_rate 1300 supplied and a non-numeric price. -/
def nanPriceRatedPayload : Payload := { price_thb := .str "x", customer_rate := .num 1300 }

/-- A wholly numeric payload that leaves customer_rate unset. -/
def noRatePayload : Payload :=
  { price_thb := .num 100
    shipping_thb := .num 20
    actual_th_to_la_cost_lak := .num 3000 }

/-- A concrete stored row for instantiating the store theorems. -/
def sampleRow : OrderRow := buildRow {} 1300 "2026-10-12"

/-- A one-row store holding `sampleRow` under id 1. -/
def sampleStore : OrderStore := [(1, sampleRow)]

/-- C1: the pricing function on the calibration scenario
(price_thb=100, shipping_thb=20, service_fee_lak=5000,
th_to_la_charge_lak=2000, actual_th_to_la_cost_lak=3000,
customer_rate=1350, base rate 1300) returns price_lak=135000,
shipping_lak=27000, total_lak=169000, rate_profit_lak=6000 and
net_profit_lak=10000. -/
theorem computeTotals_scenario :
    (computeTotals scenarioPayload 1300).price_lak = some 135000 ∧
    (computeTotals scenarioPayload 1300).shipping_lak = some 27000 ∧
    (computeTotals scenarioPayload 1300).total_lak = some 169000 ∧
    (computeTotals scenarioPayload 1300).rate_profit_lak = some 6000 ∧
    (computeTotals scenarioPayload 1300).net_profit_lak = some 10000 := by
  norm_num [computeTotals, scenarioPayload, numOrZero, numOrDefault, jmul, jadd, jsub,
    JSVal.truthy, JSVal.toNumber]

/-- Evaluation fact used throughout: the literal 0 field is falsy. -/
theorem truthy_num_zero : (JSVal.num 0).truthy = false := by decide

/-- C3: for every payload and base rate, total_lak equals
price_lak + shipping_lak + service_fee_lak + th_to_la_charge_lak, the
LAK fee fields taken after coercion, with NaN propagating identically
on both sides. -/
theorem computeTotals_additivity (p : Payload) (baseRate : ℚ) :
    (computeTotals p baseRate).total_lak =
      jadd (jadd (jadd (computeTotals p baseRate).price_lak
          (computeTotals p baseRate).shipping_lak)
        (computeTotals p baseRate).service_fee_lak)
        (computeTotals p baseRate).th_to_la_charge_lak := rfl

/-- C4: for every payload and base rate, net_profit_lak equals
total_lak - (price_thb * baseRate + shipping_thb * baseRate +
actual_th_to_la_cost_lak), with the THB amounts taken after coercion. -/
theorem computeTotals_profit_decomposition (p : Payload) (baseRate : ℚ) :
    (computeTotals p baseRate).net_profit_lak =
      jsub (computeTotals p baseRate).total_lak
        (jadd (jadd (jmul (computeTotals p baseRate).price_thb (some baseRate))
            (jmul (computeTotals p baseRate).shipping_thb (some baseRate)))
          (computeTotals p baseRate).actual_th_to_la_cost_lak) := rfl

/-- C7 (amended): the base rate is used as the customer rate whenever the
supplied customer_rate field is falsy (absent, null, 0, empty string or
false), not only when it is omitted; a truthy field is used via `Number`
coercion, and the derived LAK amounts are priced at that effective rate. -/
theorem computeTotals_customer_rate_source (p : Payload) (baseRate : ℚ) :
    (computeTotals p baseRate).customer_rate =
      (if p.customer_rate.truthy then p.customer_rate.toNumber else some baseRate) ∧
    (computeTotals p baseRate).price_lak =
      jmul (computeTotals p baseRate).price_thb (computeTotals p baseRate).customer_rate ∧
    (computeTotals p baseRate).shipping_lak =
      jmul (computeTotals p baseRate).shipping_thb (computeTotals p baseRate).customer_rate :=
  ⟨rfl, rfl, rfl⟩

/-- C7 counterexample: customer_rate is supplied as the number 0 with
base rate 1300, yet the function prices with 1300, not with the supplied
value 0. -/
theorem computeTotals_zero_customer_rate_ignored :
    (computeTotals zeroRatePayload 1300).customer_rate = some 1300 ∧
    (computeTotals zeroRatePayload 1300).price_lak = some 1300 ∧
    some (1300 : ℚ) ≠ some (0 : ℚ) := by
  refine ⟨rfl, ?_, by decide⟩
  show jmul (numOrZero (.num 1)) (numOrDefault (.num 0) 1300) = some 1300
  norm_num [numOrZero, numOrDefault, jmul, JSVal.truthy, JSVal.toNumber]

/-- C5 (amended): if the effective customer rate equals the base rate and
both THB fields coerce to actual numbers (not NaN), then rate_profit_lak
is 0 regardless of all other fields. -/
theorem computeTotals_rate_profit_zero (p : Payload) (baseRate : ℚ)
    (hc : numOrDefault p.customer_rate baseRate = some baseRate)
    (hp : (numOrZero p.price_thb).isSome = true)
    (hs : (numOrZero p.shipping_thb).isSome = true) :
    (computeTotals p baseRate).rate_profit_lak = some 0 := by
  obtain ⟨x, hx⟩ := Option.isSome_iff_exists.mp hp
  obtain ⟨y, hy⟩ := Option.isSome_iff_exists.mp hs
  simp [computeTotals, hx, hy, hc, jadd, jsub, jmul]

/-- C5 witness: the calibration payload with base rate 1350 (equal to its
supplied customer_rate) has zero rate profit. -/
theorem computeTotals_rate_profit_zero_witness :
    numOrDefault scenarioPayload.customer_rate 1350 = some 1350 ∧
    (numOrZero scenarioPayload.price_thb).isSome = true ∧
    (numOrZero scenarioPayload.shipping_thb).isSome = true ∧
    (computeTotals scenarioPayload 1350).rate_profit_lak = some 0 :=
  ⟨rfl, rfl, rfl, computeTotals_rate_profit_zero scenarioPayload 1350 rfl rfl rfl⟩

/-- C5 counterexample: customer_rate is supplied equal to the base rate
(1300), but price_thb is the non-numeric string "x", so rate_profit_lak
is NaN rather than 0. -/
theorem computeTotals_rate_profit_nan :
    (computeTotals nanPriceRatedPayload 1300).rate_profit_lak = none ∧
    (none : Option ℚ) ≠ some 0 := ⟨rfl, by decide⟩

/-- C6 (amended): with customer_rate unset and base rate 0, if both THB
fields coerce to actual numbers then price_lak, shipping_lak and
rate_profit_lak are 0 and net_profit_lak = total_lak -
actual_th_to_la_cost_lak. -/
theorem computeTotals_zero_base_rate (p : Payload)
    (hc : p.customer_rate = .undef)
    (hp : (numOrZero p.price_thb).isSome = true)
    (hs : (numOrZero p.shipping_thb).isSome = true) :
    (computeTotals p 0).price_lak = some 0 ∧
    (computeTotals p 0).shipping_lak = some 0 ∧
    (computeTotals p 0).rate_profit_lak = some 0 ∧
    (computeTotals p 0).net_profit_lak =
      jsub (computeTotals p 0).total_lak
        (computeTotals p 0).actual_th_to_la_cost_lak := by
  obtain ⟨x, hx⟩ := Option.isSome_iff_exists.mp hp
  obtain ⟨y, hy⟩ := Option.isSome_iff_exists.mp hs
  cases hac : numOrZero p.actual_th_to_la_cost_lak <;>
    simp [computeTotals, hc, hx, hy, hac, numOrDefault, JSVal.truthy, jadd, jsub, jmul]

/-- C6 witness: a wholly numeric payload without customer_rate, at base
rate 0. -/
theorem computeTotals_zero_base_rate_witness :
    noRatePayload.customer_rate = .undef ∧
    (numOrZero noRatePayload.price_thb).isSome = true ∧
    (numOrZero noRatePayload.shipping_thb).isSome = true ∧
    ((computeTotals noRatePayload 0).price_lak = some 0 ∧
     (computeTotals noRatePayload 0).shipping_lak = some 0 ∧
     (computeTotals noRatePayload 0).rate_profit_lak = some 0 ∧
     (computeTotals noRatePayload 0).net_profit_lak =
       jsub (computeTotals noRatePayload 0).total_lak
         (computeTotals noRatePayload 0).actual_th_to_la_cost_lak) :=
  ⟨rfl, rfl, rfl, computeTotals_zero_base_rate noRatePayload rfl rfl rfl⟩

/-- C6 counterexample: customer_rate unset and base rate 0, but price_thb
is the non-numeric string "x": price_lak is NaN (NaN * 0 = NaN), not 0. -/
theorem computeTotals_zero_base_rate_nan :
    nanPricePayload.customer_rate = .undef ∧
    (computeTotals nanPricePayload 0).price_lak = none ∧
    (none : Option ℚ) ≠ some 0 := ⟨rfl, rfl, by decide⟩

/-- C2 (amended): a falsy numeric field (absent, null, false, 0 or the
empty string) yields exactly the output of the same input with that field
set to the number 0; a non-empty non-numeric string is instead coerced to
NaN, which propagates into the derived fields. -/
theorem computeTotals_falsy_field_as_zero (p : Payload) (baseRate : ℚ)
    (f : NumField) (h : (p.get f).truthy = false) :
    computeTotals p baseRate = computeTotals (p.set f (.num 0)) baseRate := by
  cases f <;>
    simp_all [computeTotals, Payload.get, Payload.set, numOrZero, numOrDefault,
      truthy_num_zero]

/-- C2 witness: the all-absent payload agrees with the payload whose
price field is the number 0. -/
theorem computeTotals_falsy_field_witness :
    ((({} : Payload).get .price).truthy = false) ∧
    computeTotals {} 1300 = computeTotals (Payload.set {} .price (.num 0)) 1300 :=
  ⟨rfl, computeTotals_falsy_field_as_zero {} 1300 .price rfl⟩

/-- C2 counterexample: the non-numeric string "x" in price_thb is not
treated as 0 — price_lak becomes NaN, while the 0-field input yields 0. -/
theorem computeTotals_nonnumeric_not_zero :
    (computeTotals nanPricePayload 1300).price_lak = none ∧
    (computeTotals (nanPricePayload.set .price (.num 0)) 1300).price_lak = some 0 ∧
    (none : Option ℚ) ≠ some 0 := by
  refine ⟨rfl, ?_, by decide⟩
  simp [computeTotals, nanPricePayload, Payload.set, numOrZero, numOrDefault,
    jmul, truthy_num_zero, JSVal.truthy, JSVal.toNumber]

/-- Updating an id that some row of the store carries makes a subsequent
lookup of that id return exactly the new row. -/
theorem lookup_sqlUpdate_of_mem (store : OrderStore) (id : ℕ) (row : OrderRow)
    (h : ∃ r ∈ store, r.1 = id) :
    lookupOrder (sqlUpdate store id row).1 id = some row := by
  induction store with
  | nil => simp at h
  | cons a t ih =>
    simp only [sqlUpdate, List.map_cons, lookupOrder]
    by_cases ha : a.1 = id
    · rw [if_pos ha, List.find?_cons_of_pos _ (by simpa using ha)]
      rfl
    · obtain ⟨r, hr, hrid⟩ := h
      rcases List.mem_cons.mp hr with h1 | h2
      · exact absurd (h1 ▸ hrid) ha
      · rw [if_neg ha, List.find?_cons_of_neg _ (by simpa using ha)]
        simpa [lookupOrder, sqlUpdate] using ih ⟨r, h2, hrid⟩

/-- A present id gives a positive affected-row count for SQL UPDATE. -/
theorem sqlUpdate_affected_pos (store : OrderStore) (id : ℕ) (row : OrderRow)
    (h : ∃ r ∈ store, r.1 = id) :
    (sqlUpdate store id row).2 ≠ 0 := by
  obtain ⟨r, hr, hrid⟩ := h
  have hm : r ∈ store.filter (fun r => decide (r.1 = id)) :=
    List.mem_filter.mpr ⟨hr, by simp [hrid]⟩
  have hne : store.filter (fun r => decide (r.1 = id)) ≠ [] := List.ne_nil_of_mem hm
  simpa [sqlUpdate, List.length_eq_zero] using hne

/-- C8: updating an existing order stores exactly the fields recomputed
by the pricing function from the submitted body and the base rate current
at update time; the stored row being replaced (and in particular its
creation-time rate) has no effect on the result. -/
theorem putOrder_recomputes (store : OrderStore) (id : ℕ) (body : ReqBody)
    (baseRate : ℚ) (today : String) (h : ∃ r ∈ store, r.1 = id) :
    lookupOrder (putOrder store id body baseRate today).1 id
        = some (buildRow body baseRate today) ∧
    (buildRow body baseRate today).totals = computeTotals body.numeric baseRate ∧
    (buildRow body baseRate today).rate = baseRate ∧
    (putOrder store id body baseRate today).2 = .ok := by
  refine ⟨lookup_sqlUpdate_of_mem store id _ h, rfl, rfl, ?_⟩
  show (if (sqlUpdate store id (buildRow body baseRate today)).2 = 0
      then Outcome.notFound else .ok) = .ok
  rw [if_neg (sqlUpdate_affected_pos store id _ h)]

/-- C8 witness: updating id 1 of the one-row store at base rate 1350. -/
theorem putOrder_recomputes_witness :
    (∃ r ∈ sampleStore, r.1 = 1) ∧
    (lookupOrder (putOrder sampleStore 1 {} 1350 "2026-10-13").1 1
        = some (buildRow {} 1350 "2026-10-13") ∧
     (buildRow {} 1350 "2026-10-13").totals = computeTotals ({} : ReqBody).numeric 1350 ∧
     (buildRow {} 1350 "2026-10-13").rate = 1350 ∧
     (putOrder sampleStore 1 {} 1350 "2026-10-13").2 = .ok) :=
  ⟨⟨(1, sampleRow), by simp [sampleStore], rfl⟩,
   putOrder_recomputes sampleStore 1 {} 1350 "2026-10-13"
     ⟨(1, sampleRow), by simp [sampleStore], rfl⟩⟩

/-- Deleting an absent id removes nothing. -/
theorem filter_ne_of_absent (store : OrderStore) (id : ℕ)
    (h : ∀ r ∈ store, r.1 ≠ id) :
    store.filter (fun r => decide (r.1 ≠ id)) = store := by
  induction store with
  | nil => rfl
  | cons a t ih =>
    have ha : a.1 ≠ id := h a (List.mem_cons_self a t)
    rw [List.filter_cons, if_pos (by simpa using ha),
      ih (fun r hr => h r (List.mem_cons_of_mem a hr))]

/-- An absent id matches no row. -/
theorem filter_eq_nil_of_absent (store : OrderStore) (id : ℕ)
    (h : ∀ r ∈ store, r.1 ≠ id) :
    store.filter (fun r => decide (r.1 = id)) = [] := by
  induction store with
  | nil => rfl
  | cons a t ih =>
    have ha : a.1 ≠ id := h a (List.mem_cons_self a t)
    rw [List.filter_cons, if_neg (by simpa using ha),
      ih (fun r hr => h r (List.mem_cons_of_mem a hr))]

/-- An UPDATE on an absent id rewrites no row. -/
theorem map_update_of_absent (store : OrderStore) (id : ℕ) (row : OrderRow)
    (h : ∀ r ∈ store, r.1 ≠ id) :
    store.map (fun r => if r.1 = id then (r.1, row) else r) = store := by
  induction store with
  | nil => rfl
  | cons a t ih =>
    have ha : a.1 ≠ id := h a (List.mem_cons_self a t)
    rw [List.map_cons, if_neg ha, ih (fun r hr => h r (List.mem_cons_of_mem a hr))]

/-- C9: deleting (or updating) an id absent from the store yields the
NotFound outcome — detected by an affected-row count of zero — leaves the
store unchanged, and NotFound is distinct from the StorageFailure outcome
of the catch branch. -/
theorem deleteOrder_absent_notFound (store : OrderStore) (id : ℕ)
    (body : ReqBody) (baseRate : ℚ) (today : String)
    (h : ∀ r ∈ store, r.1 ≠ id) :
    deleteOrder store id = (store, .notFound) ∧
    (sqlDelete store id).2 = 0 ∧
    putOrder store id body baseRate today = (store, .notFound) ∧
    Outcome.notFound ≠ Outcome.storageFailure := by
  have h1 := filter_ne_of_absent store id h
  have h2 := filter_eq_nil_of_absent store id h
  have h3 := map_update_of_absent store id (buildRow body baseRate today) h
  have hd : sqlDelete store id = (store, 0) := by
    simp only [sqlDelete, h1, h2, List.length_nil]
  have hu : sqlUpdate store id (buildRow body baseRate today) = (store, 0) := by
    simp only [sqlUpdate, h2, h3, List.length_nil]
  refine ⟨?_, ?_, ?_, by decide⟩
  · simp [deleteOrder, hd]
  · simp [hd]
  · simp [putOrder, hu]

/-- C9 witness: id 2 is absent from the one-row store under id 1. -/
theorem deleteOrder_absent_notFound_witness :
    (∀ r ∈ sampleStore, r.1 ≠ 2) ∧
    (deleteOrder sampleStore 2 = (sampleStore, .notFound) ∧
     (sqlDelete sampleStore 2).2 = 0 ∧
     putOrder sampleStore 2 {} 1300 "2026-10-13" = (sampleStore, .notFound) ∧
     Outcome.notFound ≠ Outcome.storageFailure) :=
  ⟨by decide, deleteOrder_absent_notFound sampleStore 2 {} 1300 "2026-10-13" (by decide)⟩

/-- C10: summarizing the empty order store gives 0 for every sum and
every count of the summary object, each field being present by
construction of the `Summary` structure. -/
theorem summarize_empty (today : String) (rate : ℚ) (ru : Option String) :
    (summarize [] today rate ru).today_total_lak = 0 ∧
    (summarize [] today rate ru).today_profit_total = 0 ∧
    (summarize [] today rate ru).today_rate_profit = 0 ∧
    (summarize [] today rate ru).today_other_profit = 0 ∧
    (summarize [] today rate ru).today_orders_count = 0 ∧
    (summarize [] today rate ru).month_total_lak = 0 ∧
    (summarize [] today rate ru).month_profit_total = 0 ∧
    (summarize [] today rate ru).paid_orders = 0 ∧
    (summarize [] today rate ru).unpaid_orders = 0 ∧
    (summarize [] today rate ru).unpaid_value_lak = 0 ∧
    (summarize [] today rate ru).gross_value_lak = 0 ∧
    (summarize [] today rate ru).all_orders_count = 0 := by
  simp [summarize, sqlSum, aggOrZero]
